import Mathlib

/-!
Verification of the telegram polling bot scripts.

The repository ships two variants of the same bot, a unified asyncio script
and an older threading script. Both define a BotManager class with a vote
handler named receive and a poll lifecycle. The definitions below are a
shallow embedding of the relevant methods: the vote store is a list of
documents, the message deletions and lifecycle steps are modelled as the
sequences of calls the code issues, and configuration validation in the two
main entry points is modelled as a function from the configuration to an
outcome.
-/

namespace PollingBot

/-- Status values of the PollStatus enum shared by both scripts. -/
inductive PollStatus where
  | active
  | closed
  | cancelled
deriving DecidableEq

/-- An incoming poll answer update as consumed by the vote handler of
BotManager: voter id, optional username, the list of selected option
indices and the poll id. -/
structure PollAnswer where
  user_id : Nat
  username : Option String
  option_ids : List Nat
  poll_id : String
deriving DecidableEq

/-- A vote document as written to the votes collection by the vote
handler. -/
structure VoteEntry where
  user_id : Nat
  selected_option : Nat
  poll_id : String
  username : String
  poll_creation_date : Option String
  vote_timestamp : String
deriving DecidableEq

/-- The document id the handler builds for a vote: the voter id and the
poll id joined by a dash. -/
def voteId (user_id : Nat) (poll_id : String) : String :=
  toString user_id ++ "-" ++ poll_id

/-- Document key of a stored vote entry. -/
def VoteEntry.key (e : VoteEntry) : String :=
  voteId e.user_id e.poll_id

/-- Python truthiness applied to the optional username: None and the empty
string both fall back to the placeholder Unknown. -/
def usernameOrUnknown : Option String → String
  | none => "Unknown"
  | some s => if s = "" then "Unknown" else s

/-- MongoDB insert on the votes collection: inserting a document whose id
already exists raises a duplicate key error, modelled as none; otherwise
the document is appended to the collection. -/
def insert_doc (store : List VoteEntry) (e : VoteEntry) : Option (List VoteEntry) :=
  if store.any (fun x => x.key = e.key) then none
  else some (store ++ [e])

/-- Embedding of BotManager vote handling (identical in both scripts). It
reads the first selected option index (an empty list raises an index error
that the surrounding try block catches, leaving the store unchanged), logs
the option label (an out of range index raises there, also caught), builds
the vote document and inserts it; a duplicate key error from the insert is
caught by the same try block, so the store is returned unchanged. -/
def receive_poll_answer (poll_options : List String) (poll_creation_date : Option String)
    (now : String) (store : List VoteEntry) (pa : PollAnswer) : List VoteEntry :=
  match pa.option_ids with
  | [] => store
  | selected_option :: _ =>
    if selected_option < poll_options.length then
      match insert_doc store
          ⟨pa.user_id, selected_option, pa.poll_id, usernameOrUnknown pa.username,
            poll_creation_date, now⟩ with
      | some newStore => newStore
      | none => store
    else store

/-- C1 counterexample: the vote handler stores votes with a plain insert, so
a second vote event for the same voter and poll raises a duplicate key error
that is caught and dropped. After a vote for option 0 followed by a vote for
option 1 from voter 1 on poll1, the stored record does not reflect the later
option index 1, contradicting the claimed upsert semantics. -/
theorem receive_upsert_counterexample :
  ¬ ((((receive_poll_answer ["Option A", "Option B"] (some "2025-01-01") "t2"
        (receive_poll_answer ["Option A", "Option B"] (some "2025-01-01") "t1" []
          ⟨1, some "alice", [0], "poll1"⟩)
        ⟨1, some "alice", [1], "poll1"⟩).filter
        (fun e => e.key = voteId 1 "poll1")).map VoteEntry.selected_option) = [1]) := by
  decide

/-- C1 amended: for two in-bounds vote events with the same voter id and poll
id arriving at a store that holds no record for that key yet, the store
afterwards holds exactly one record for the key, and that record reflects the
first event, the option index of the earlier vote: the duplicate insert fails
with a duplicate key error that is caught, so the later event is dropped
rather than overwriting. -/
theorem receive_duplicate_vote_first_wins
    (opts : List String) (cd : Option String) (t1 t2 : String)
    (store : List VoteEntry) (pa1 pa2 : PollAnswer) (o1 o2 : Nat) (r1 r2 : List Nat)
    (h1 : pa1.option_ids = o1 :: r1) (h2 : pa2.option_ids = o2 :: r2)
    (hb1 : o1 < opts.length) (hb2 : o2 < opts.length)
    (hu : pa2.user_id = pa1.user_id) (hp : pa2.poll_id = pa1.poll_id)
    (hfresh : ∀ e ∈ store, e.key ≠ voteId pa1.user_id pa1.poll_id) :
    ((receive_poll_answer opts cd t2 (receive_poll_answer opts cd t1 store pa1) pa2).filter
      (fun e => e.key = voteId pa1.user_id pa1.poll_id)).map VoteEntry.selected_option
      = [o1] := by
  obtain ⟨u1, n1, ids1, p1⟩ := pa1
  obtain ⟨u2, n2, ids2, p2⟩ := pa2
  dsimp only at h1 h2 hu hp hfresh ⊢
  subst h1; subst h2; subst hu; subst hp
  have hins1 : insert_doc store ⟨u2, o1, p2, usernameOrUnknown n1, cd, t1⟩
      = some (store ++ [⟨u2, o1, p2, usernameOrUnknown n1, cd, t1⟩]) := by
    unfold insert_doc
    rw [if_neg]
    intro hany
    rw [List.any_eq_true] at hany
    obtain ⟨x, hx, hxk⟩ := hany
    exact hfresh x hx (of_decide_eq_true hxk)
  have hs1 : receive_poll_answer opts cd t1 store ⟨u2, n1, o1 :: r1, p2⟩
      = store ++ [⟨u2, o1, p2, usernameOrUnknown n1, cd, t1⟩] := by
    simp only [receive_poll_answer]
    rw [if_pos hb1, hins1]
  have hins2 : insert_doc (store ++ [⟨u2, o1, p2, usernameOrUnknown n1, cd, t1⟩])
      ⟨u2, o2, p2, usernameOrUnknown n2, cd, t2⟩ = none := by
    unfold insert_doc
    rw [if_pos]
    rw [List.any_eq_true]
    exact ⟨⟨u2, o1, p2, usernameOrUnknown n1, cd, t1⟩, by simp, decide_eq_true rfl⟩
  have hs2 : receive_poll_answer opts cd t2
      (store ++ [⟨u2, o1, p2, usernameOrUnknown n1, cd, t1⟩]) ⟨u2, n2, o2 :: r2, p2⟩
      = store ++ [⟨u2, o1, p2, usernameOrUnknown n1, cd, t1⟩] := by
    simp only [receive_poll_answer]
    rw [if_pos hb2, hins2]
  rw [hs1, hs2, List.filter_append]
  have hnil : store.filter (fun e => decide (e.key = voteId u2 p2)) = [] := by
    rw [List.filter_eq_nil_iff]
    intro e he
    simpa using hfresh e he
  rw [hnil]
  simp [VoteEntry.key]

/-- C1 amended witness: after a vote for option 0 and a duplicate vote for
option 1 from voter 1 on poll1, the store holds exactly the record for
option 0, the earlier vote. -/
theorem receive_duplicate_vote_first_wins_witness :
    ((receive_poll_answer ["Option A", "Option B"] (some "2025-01-01") "t2"
        (receive_poll_answer ["Option A", "Option B"] (some "2025-01-01") "t1" []
          ⟨1, some "alice", [0], "poll1"⟩)
        ⟨1, some "alice", [1], "poll1"⟩).filter
      (fun e => e.key = voteId 1 "poll1")).map VoteEntry.selected_option = [0] := by
  exact receive_duplicate_vote_first_wins ["Option A", "Option B"] (some "2025-01-01") "t1" "t2"
    [] ⟨1, some "alice", [0], "poll1"⟩ ⟨1, some "alice", [1], "poll1"⟩ 0 1 [] []
    rfl rfl (by decide) (by decide) rfl rfl (by simp)

/-- C7: a vote event whose first selected option index is at least the length
of the configured option list is dropped: the index error raised while
formatting the log line is caught, no record is written, and any subsequent
event is handled exactly as it would have been without the bad event. -/
theorem receive_out_of_range_drops
    (opts : List String) (cd : Option String) (now : String) (store : List VoteEntry)
    (pa : PollAnswer) (sel : Nat) (rest : List Nat)
    (hsel : pa.option_ids = sel :: rest) (hoob : opts.length ≤ sel) :
    receive_poll_answer opts cd now store pa = store ∧
    ∀ pb : PollAnswer, receive_poll_answer opts cd now (receive_poll_answer opts cd now store pa) pb
      = receive_poll_answer opts cd now store pb := by
  obtain ⟨u, n, ids, p⟩ := pa
  dsimp only at hsel
  subst hsel
  have h : receive_poll_answer opts cd now store ⟨u, n, sel :: rest, p⟩ = store := by
    simp only [receive_poll_answer]
    rw [if_neg (Nat.not_lt.mpr hoob)]
  exact ⟨h, fun pb => by rw [h]⟩

/-- C7 witness: a vote for option index 5 against a two option list is
dropped and a later in-range event is processed as if it never happened. -/
theorem receive_out_of_range_drops_witness :
    receive_poll_answer ["Option A", "Option B"] none "t" [] ⟨7, none, [5], "p"⟩ = [] ∧
    receive_poll_answer ["Option A", "Option B"] none "t"
        (receive_poll_answer ["Option A", "Option B"] none "t" [] ⟨7, none, [5], "p"⟩)
        ⟨8, none, [0], "p"⟩
      = receive_poll_answer ["Option A", "Option B"] none "t" [] ⟨8, none, [0], "p"⟩ := by
  have h := receive_out_of_range_drops ["Option A", "Option B"] none "t" []
    ⟨7, none, [5], "p"⟩ 5 [] rfl (by decide)
  exact ⟨h.1, h.2 ⟨8, none, [0], "p"⟩⟩

/-- C10: a vote event with an empty list of selected option indices, the shape
of a vote retraction, writes no record: reading the first element raises an
index error that the handler catches, the store is unchanged and subsequent
events are handled exactly as without the retraction event. -/
theorem receive_retraction_no_record
    (opts : List String) (cd : Option String) (now : String) (store : List VoteEntry)
    (pa : PollAnswer) (hempty : pa.option_ids = []) :
    receive_poll_answer opts cd now store pa = store ∧
    ∀ pb : PollAnswer, receive_poll_answer opts cd now (receive_poll_answer opts cd now store pa) pb
      = receive_poll_answer opts cd now store pb := by
  obtain ⟨u, n, ids, p⟩ := pa
  dsimp only at hempty
  subst hempty
  have h : receive_poll_answer opts cd now store ⟨u, n, [], p⟩ = store := rfl
  exact ⟨h, fun pb => by rw [h]⟩

/-- C10 witness: a retraction event from voter 3 leaves the empty store
unchanged and a later vote is processed as if the retraction never
happened. -/
theorem receive_retraction_no_record_witness :
    receive_poll_answer ["Option A", "Option B"] none "t" [] ⟨3, some "bob", [], "p"⟩ = [] ∧
    receive_poll_answer ["Option A", "Option B"] none "t"
        (receive_poll_answer ["Option A", "Option B"] none "t" [] ⟨3, some "bob", [], "p"⟩)
        ⟨4, none, [1], "p"⟩
      = receive_poll_answer ["Option A", "Option B"] none "t" [] ⟨4, none, [1], "p"⟩ := by
  have h := receive_retraction_no_record ["Option A", "Option B"] none "t" []
    ⟨3, some "bob", [], "p"⟩ rfl
  exact ⟨h.1, h.2 ⟨4, none, [1], "p"⟩⟩

/-- Sequence of message ids the unified script issues delete calls for in its
cleanup stage: it iterates over the tracked list as is and deletes every id
different from the poll message id. -/
def cleanup_deletes_unified (message_ids : List Nat) (poll_message_id : Nat) : List Nat :=
  message_ids.filter (fun m => m ≠ poll_message_id)

/-- Sequence of message ids the threading script issues delete calls for in
its cleanup stage: it first builds a set of the tracked ids, then deletes
every member different from the poll message id. The set is modelled by
dedup; the claims below only count occurrences, so the unspecified iteration
order of a Python set is immaterial. -/
def cleanup_deletes_threading (message_ids : List Nat) (poll_message_id : Nat) : List Nat :=
  message_ids.dedup.filter (fun m => m ≠ poll_message_id)

/-- C2 counterexample: the unified cleanup stage does not deduplicate the
tracked ids, so with tracked list 5, 5, 7, 7, 9 and poll message id 9 the id
5 receives two delete calls, not exactly one as claimed. -/
theorem cleanup_unified_duplicate_counterexample :
  ¬ ((cleanup_deletes_unified [5, 5, 7, 7, 9] 9).count 5 = 1) := by
  decide

/-- C2 amended: neither variant ever issues a delete for the poll message id.
The threading variant deduplicates first and deletes each other tracked id
exactly once; the unified variant performs no deduplication and issues one
delete per occurrence, so a duplicated tracked id is deleted once per
duplicate. -/
theorem cleanup_deletes_characterised (ids : List Nat) (pid m : Nat) :
    pid ∉ cleanup_deletes_unified ids pid ∧
    pid ∉ cleanup_deletes_threading ids pid ∧
    (cleanup_deletes_threading ids pid).count m = (if m ∈ ids ∧ m ≠ pid then 1 else 0) ∧
    (cleanup_deletes_unified ids pid).count m = (if m = pid then 0 else ids.count m) := by
  refine ⟨?_, ?_, ?_, ?_⟩
  · simp [cleanup_deletes_unified, List.mem_filter]
  · simp [cleanup_deletes_threading, List.mem_filter]
  · by_cases hmp : m = pid
    · subst hmp
      have hnotmem : m ∉ cleanup_deletes_threading ids m := by
        simp [cleanup_deletes_threading, List.mem_filter]
      rw [List.count_eq_zero.mpr hnotmem]
      simp
    · rw [cleanup_deletes_threading, List.count_filter (by simpa using hmp)]
      rw [List.count_dedup]
      simp [hmp]
  · by_cases hmp : m = pid
    · subst hmp
      have hnotmem : m ∉ cleanup_deletes_unified ids m := by
        simp [cleanup_deletes_unified, List.mem_filter]
      rw [List.count_eq_zero.mpr hnotmem]
      simp
    · rw [cleanup_deletes_unified, List.count_filter (by simpa using hmp)]
      simp [hmp]

/-- Outcome of running one of the two main entry points, up to the point
where the poll lifecycle would be started. -/
inductive MainOutcome where
  | fatalConfigError (msg : String)
  | silentReturn
  | lifecycleStarted
deriving DecidableEq

/-- Configuration surface read from the environment by both scripts. -/
structure BotConfig where
  tg_bot_api_token : Option String
  tg_chat_id : Int
  poll_duration_in_mins : Int
  reminder_mins : Int

/-- Python truthiness of the optional bot token: a missing token and the
empty string are both falsy. -/
def tokenFalsy : Option String → Bool
  | none => true
  | some s => s = ""

/-- Embedding of the main entry point of the unified script: it raises a
BotConfigError for a missing token, a missing or zero chat id, and a poll
duration not greater than the reminder lead; otherwise it starts the bot
and the poll lifecycle. -/
def main_unified (cfg : BotConfig) : MainOutcome :=
  if tokenFalsy cfg.tg_bot_api_token then .fatalConfigError "Missing TG_BOT_API_TOKEN"
  else if cfg.tg_chat_id = 0 then .fatalConfigError "Missing TG_CHAT_ID"
  else if cfg.poll_duration_in_mins ≤ cfg.reminder_mins then
    .fatalConfigError "Invalid poll duration configuration"
  else .lifecycleStarted

/-- Embedding of the main entry point of the threading script: it returns
silently for a missing token or a zero chat id and otherwise starts the bot
and the poll lifecycle; it performs no validation of the poll duration
against the reminder lead. -/
def main_threading (cfg : BotConfig) : MainOutcome :=
  if tokenFalsy cfg.tg_bot_api_token then .silentReturn
  else if cfg.tg_chat_id = 0 then .silentReturn
  else .lifecycleStarted

/-- C3 counterexample: the threading entry point does not validate the
duration against the reminder lead. With a present token, chat id 1,
duration 10 and reminder lead 15, the lead is not below the duration and
yet the lifecycle is started rather than startup failing. -/
theorem main_threading_no_duration_validation :
  (10 : Int) ≤ 15 ∧
  main_threading ⟨some "token", 1, 10, 15⟩ = MainOutcome.lifecycleStarted := by
  exact ⟨by decide, rfl⟩

/-- C3 amended: only the unified entry point validates the duration and
lead ordering. For every configuration whose reminder lead is at least the
poll duration, the unified entry point never starts the lifecycle, and when
token and chat id are otherwise valid it fails with the descriptive fatal
configuration error. The threading entry point performs no such check. -/
theorem main_unified_duration_validation (cfg : BotConfig)
    (h : cfg.poll_duration_in_mins ≤ cfg.reminder_mins) :
    main_unified cfg ≠ MainOutcome.lifecycleStarted ∧
    (tokenFalsy cfg.tg_bot_api_token = false → cfg.tg_chat_id ≠ 0 →
      main_unified cfg = MainOutcome.fatalConfigError "Invalid poll duration configuration") := by
  constructor
  · unfold main_unified
    by_cases ht : tokenFalsy cfg.tg_bot_api_token
    · simp [ht]
    · by_cases hc : cfg.tg_chat_id = 0
      · simp [ht, hc]
      · simp [ht, hc, h]
  · intro ht hc
    unfold main_unified
    simp [ht, hc, h]

/-- C3 witness: with token present, chat id 1, duration 10 and reminder 15
the unified entry point fails with the descriptive configuration error. -/
theorem main_unified_duration_validation_witness :
    main_unified ⟨some "token", 1, 10, 15⟩ ≠ MainOutcome.lifecycleStarted ∧
    (tokenFalsy (some "token") = false → (1 : Int) ≠ 0 →
      main_unified ⟨some "token", 1, 10, 15⟩
        = MainOutcome.fatalConfigError "Invalid poll duration configuration") := by
  exact main_unified_duration_validation ⟨some "token", 1, 10, 15⟩ (by decide)

/-- One option of the closed poll as read back from the close response:
its label and its voter count. -/
structure PollOption where
  text : String
  voter_count : Nat
deriving DecidableEq

/-- One per option tally entry as built by the result processing loop. -/
structure OptionResult where
  option_text : String
  votes : Nat
  percentage : Rat
deriving DecidableEq

/-- Result of the result processing step: the per option tallies stored in
the payload, the list of divisions the code performs, each as a pair of
numerator and denominator, and the announced outcome. The outcome is none
exactly when the code would raise an uncaught index error reading the first
winner from an empty winner list. -/
structure TallyResult where
  option_votes : List OptionResult
  divisions : List (Nat × Nat)
  outcome : Option String
deriving DecidableEq

/-- Maximum vote count as accumulated by the result processing loop, a fold
of max starting from zero. -/
def maxVotes (options : List PollOption) : Nat :=
  options.foldl (fun m o => max m o.voter_count) 0

/-- Per option tally entries built in the result processing loop, with the
percentage computed as votes divided by total times one hundred. -/
def tally_option_votes (options : List PollOption) (total_votes : Nat) : List OptionResult :=
  options.map (fun o =>
    ⟨o.text, o.voter_count, (o.voter_count : Rat) / (total_votes : Rat) * 100⟩)

/-- Winner list of the result processing step: the tally entries whose vote
count equals the accumulated maximum. -/
def tally_winners (options : List PollOption) (total_votes : Nat) : List OptionResult :=
  (tally_option_votes options total_votes).filter (fun ov => ov.votes = maxVotes options)

/-- Embedding of the result processing step shared by both scripts. With a
positive total it computes the tallies, one division per option, and either
announces a tie naming every winner joined by a comma and a space, or the
single winner. With total zero it records empty tallies, performs no
division, and announces the no votes sentinel. -/
def process_poll_results (options : List PollOption) (total_votes : Nat) : TallyResult :=
  if 0 < total_votes then
    if 1 < (tally_winners options total_votes).length then
      ⟨tally_option_votes options total_votes,
        options.map (fun o => (o.voter_count, total_votes)),
        some ("Tie between: " ++ String.intercalate ", "
          ((tally_winners options total_votes).map OptionResult.option_text))⟩
    else
      match tally_winners options total_votes with
      | [] => ⟨tally_option_votes options total_votes,
          options.map (fun o => (o.voter_count, total_votes)), none⟩
      | w :: _ => ⟨tally_option_votes options total_votes,
          options.map (fun o => (o.voter_count, total_votes)), some w.option_text⟩
  else
    ⟨[], [], some "No votes received"⟩

/-- C4: with a total voter count of zero the tally stage records an empty
per option tally, performs no division at all, and announces the no votes
sentinel; and whenever any division is performed the total is positive. -/
theorem tally_zero_votes_safe (options : List PollOption) :
    (process_poll_results options 0).option_votes = [] ∧
    (process_poll_results options 0).divisions = [] ∧
    (process_poll_results options 0).outcome = some "No votes received" ∧
    ∀ total : Nat, (process_poll_results options total).divisions ≠ [] → 0 < total := by
  refine ⟨rfl, rfl, rfl, ?_⟩
  intro total h
  cases total with
  | zero => exact absurd rfl h
  | succ n => exact Nat.succ_pos n

/-- C4 witness: a one option poll with total zero announces the sentinel,
and at total one the division list is nonempty, so the total is positive. -/
theorem tally_zero_votes_safe_witness :
    (process_poll_results [⟨"Option A", 1⟩] 0).outcome = some "No votes received" ∧
    (0 : Nat) < 1 := by
  have h := tally_zero_votes_safe [⟨"Option A", 1⟩]
  exact ⟨h.2.2.1, h.2.2.2 1 (by decide)⟩

/-- The fold of max never drops below its starting accumulator. -/
theorem le_foldl_max_init (l : List PollOption) (a : Nat) :
    a ≤ l.foldl (fun m x => max m x.voter_count) a := by
  induction l generalizing a with
  | nil => exact le_refl a
  | cons x t ih =>
    exact le_trans (Nat.le_max_left a x.voter_count) (ih (max a x.voter_count))

/-- Every member of the option list is bounded by the fold of max. -/
theorem mem_le_foldl_max : ∀ (l : List PollOption) (a : Nat) (o : PollOption), o ∈ l →
    o.voter_count ≤ l.foldl (fun m x => max m x.voter_count) a
  | x :: t, a, o, ho => by
    cases ho with
    | head => exact le_trans (Nat.le_max_right a x.voter_count) (le_foldl_max_init t _)
    | tail _ hmem => exact mem_le_foldl_max t (max a x.voter_count) o hmem

/-- The fold of max stays below any common upper bound of the accumulator
and the voter counts. -/
theorem foldl_max_le : ∀ (l : List PollOption) (c a : Nat),
    (∀ o ∈ l, o.voter_count ≤ c) → a ≤ c →
    l.foldl (fun m x => max m x.voter_count) a ≤ c
  | [], _, _, _, ha => ha
  | x :: t, c, a, hl, ha =>
    foldl_max_le t c (max a x.voter_count)
      (fun o ho => hl o (List.mem_cons_of_mem x ho))
      (max_le ha (hl x (List.mem_cons_self x t)))

/-- Filtering by a vote count attained at exactly one position yields the
singleton of the element at that position. -/
theorem filter_count_eq_singleton : ∀ (l : List PollOption) (i : Nat) (hi : i < l.length)
    (m : Nat), (l.get ⟨i, hi⟩).voter_count = m →
    (∀ j (hj : j < l.length), j ≠ i → (l.get ⟨j, hj⟩).voter_count ≠ m) →
    l.filter (fun o => o.voter_count = m) = [l.get ⟨i, hi⟩]
  | x :: t, 0, hi, m, him, hother => by
    have him2 : x.voter_count = m := him
    rw [List.filter_cons, if_pos (decide_eq_true him2)]
    have ht : t.filter (fun o => decide (o.voter_count = m)) = [] := by
      rw [List.filter_eq_nil_iff]
      intro o ho
      obtain ⟨⟨j, hj⟩, hget⟩ := List.mem_iff_get.mp ho
      have h1 := hother (j + 1) (Nat.succ_lt_succ hj) (Nat.succ_ne_zero j)
      have h2 : (t.get ⟨j, hj⟩).voter_count ≠ m := h1
      rw [hget] at h2
      simpa using h2
    rw [ht]
    rfl
  | x :: t, i + 1, hi, m, him, hother => by
    have hx : ¬ (x.voter_count = m) :=
      hother 0 (Nat.succ_pos _) (Ne.symm (Nat.succ_ne_zero i))
    rw [List.filter_cons, if_neg (by simpa using hx)]
    exact filter_count_eq_singleton t i (Nat.lt_of_succ_lt_succ hi) m him
      (fun j hj hne => hother (j + 1) (Nat.succ_lt_succ hj)
        (fun h => hne (Nat.succ_injective h)))

/-- The winner list equals the option list filtered to the options attaining
the accumulated maximum, mapped to tally entries. -/
theorem tally_winners_eq (options : List PollOption) (total : Nat) :
    tally_winners options total
      = (options.filter (fun o => o.voter_count = maxVotes options)).map
          (fun o => (⟨o.text, o.voter_count,
            (o.voter_count : Rat) / (total : Rat) * 100⟩ : OptionResult)) := by
  unfold tally_winners tally_option_votes
  rw [List.filter_map]
  rfl

/-- C5: when the total is positive and exactly one option attains the
strictly greatest vote count, the result processing step announces that
option as the winner. -/
theorem process_results_unique_winner (options : List PollOption) (total : Nat) (i : Nat)
    (hi : i < options.length) (htotal : 0 < total)
    (huniq : ∀ j (hj : j < options.length), j ≠ i →
      (options.get ⟨j, hj⟩).voter_count < (options.get ⟨i, hi⟩).voter_count) :
    (process_poll_results options total).outcome = some (options.get ⟨i, hi⟩).text := by
  have hmax : maxVotes options = (options.get ⟨i, hi⟩).voter_count := by
    apply le_antisymm
    · apply foldl_max_le
      · intro o ho
        obtain ⟨⟨j, hj⟩, hget⟩ := List.mem_iff_get.mp ho
        rw [← hget]
        by_cases hji : j = i
        · subst hji
          exact le_refl _
        · exact le_of_lt (huniq j hj hji)
      · exact Nat.zero_le _
    · exact mem_le_foldl_max options 0 _ (List.get_mem options i hi)
  have hfil : options.filter (fun o => o.voter_count = maxVotes options)
      = [options.get ⟨i, hi⟩] := by
    rw [hmax]
    exact filter_count_eq_singleton options i hi _ rfl
      (fun j hj hne => Nat.ne_of_lt (huniq j hj hne))
  have hwin : tally_winners options total
      = [⟨(options.get ⟨i, hi⟩).text, (options.get ⟨i, hi⟩).voter_count,
          ((options.get ⟨i, hi⟩).voter_count : Rat) / (total : Rat) * 100⟩] := by
    rw [tally_winners_eq, hfil]
    rfl
  unfold process_poll_results
  rw [if_pos htotal, hwin]
  rw [if_neg (by simp)]

/-- C5 witness: with counts 2 and 1 on a two option list and total 3, the
announced winner is the first option. -/
theorem process_results_unique_winner_witness :
    (process_poll_results [⟨"Option A", 2⟩, ⟨"Option B", 1⟩] 3).outcome
      = some (([⟨"Option A", 2⟩, ⟨"Option B", 1⟩] : List PollOption).get
          ⟨0, by decide⟩).text := by
  exact process_results_unique_winner [⟨"Option A", 2⟩, ⟨"Option B", 1⟩] 3 0
    (by decide) (by decide) (by decide)

/-- A list with two distinct positions satisfying a predicate keeps at least
two elements under filtering by that predicate. -/
theorem two_le_length_filter : ∀ (l : List PollOption) (p : PollOption → Bool) (i j : Nat)
    (hi : i < l.length) (hj : j < l.length), i ≠ j →
    p (l.get ⟨i, hi⟩) = true → p (l.get ⟨j, hj⟩) = true → 2 ≤ (l.filter p).length
  | x :: t, p, 0, 0, _, _, hij, _, _ => absurd rfl hij
  | x :: t, p, 0, j + 1, hi, hj, hij, hpi, hpj => by
    have hpx : p x = true := hpi
    rw [List.filter_cons, if_pos hpx]
    have hpj2 : p (t.get ⟨j, Nat.lt_of_succ_lt_succ hj⟩) = true := hpj
    have hmem : t.get ⟨j, Nat.lt_of_succ_lt_succ hj⟩ ∈ t.filter p :=
      List.mem_filter.mpr ⟨List.get_mem t j _, hpj2⟩
    have hlen : 1 ≤ (t.filter p).length :=
      List.length_pos.mpr (List.ne_nil_of_mem hmem)
    simpa using Nat.succ_le_succ hlen
  | x :: t, p, i + 1, 0, hi, hj, hij, hpi, hpj => by
    have hpx : p x = true := hpj
    rw [List.filter_cons, if_pos hpx]
    have hpi2 : p (t.get ⟨i, Nat.lt_of_succ_lt_succ hi⟩) = true := hpi
    have hmem : t.get ⟨i, Nat.lt_of_succ_lt_succ hi⟩ ∈ t.filter p :=
      List.mem_filter.mpr ⟨List.get_mem t i _, hpi2⟩
    have hlen : 1 ≤ (t.filter p).length :=
      List.length_pos.mpr (List.ne_nil_of_mem hmem)
    simpa using Nat.succ_le_succ hlen
  | x :: t, p, i + 1, j + 1, hi, hj, hij, hpi, hpj => by
    have ht := two_le_length_filter t p i j (Nat.lt_of_succ_lt_succ hi)
      (Nat.lt_of_succ_lt_succ hj) (fun h => hij (by rw [h])) hpi hpj
    rw [List.filter_cons]
    cases hpx : p x
    · rw [if_neg (by simp [hpx])]
      exact ht
    · rw [if_pos (by simp [hpx])]
      exact le_trans ht (by simp)

/-- C6: when the total is positive and at least two distinct options share
the maximum vote count, the result processing step announces a tie naming
exactly the options attaining that maximum, in original option order,
joined by a comma and a space. -/
theorem process_results_tie_names_all (options : List PollOption) (total : Nat) (i j : Nat)
    (hi : i < options.length) (hj : j < options.length) (hij : i ≠ j) (htotal : 0 < total)
    (heq : (options.get ⟨j, hj⟩).voter_count = (options.get ⟨i, hi⟩).voter_count)
    (hmax : ∀ k (hk : k < options.length),
      (options.get ⟨k, hk⟩).voter_count ≤ (options.get ⟨i, hi⟩).voter_count) :
    (process_poll_results options total).outcome
      = some ("Tie between: " ++ String.intercalate ", "
          ((options.filter (fun o =>
            o.voter_count = (options.get ⟨i, hi⟩).voter_count)).map PollOption.text)) := by
  have hmaxeq : maxVotes options = (options.get ⟨i, hi⟩).voter_count := by
    apply le_antisymm
    · apply foldl_max_le
      · intro o ho
        obtain ⟨⟨k, hk⟩, hget⟩ := List.mem_iff_get.mp ho
        rw [← hget]
        exact hmax k hk
      · exact Nat.zero_le _
    · exact mem_le_foldl_max options 0 _ (List.get_mem options i hi)
  have hwin : tally_winners options total
      = (options.filter (fun o =>
          o.voter_count = (options.get ⟨i, hi⟩).voter_count)).map
          (fun o => (⟨o.text, o.voter_count,
            (o.voter_count : Rat) / (total : Rat) * 100⟩ : OptionResult)) := by
    rw [tally_winners_eq, hmaxeq]
  have hlen : 2 ≤ (tally_winners options total).length := by
    rw [hwin, List.length_map]
    exact two_le_length_filter options _ i j hi hj hij
      (decide_eq_true rfl) (decide_eq_true heq)
  unfold process_poll_results
  rw [if_pos htotal, if_pos (lt_of_lt_of_le one_lt_two hlen), hwin, List.map_map]
  rfl

/-- C6 witness: with counts 2 and 2 on a two option list and total 4, the
announced outcome is a tie naming both options in order. -/
theorem process_results_tie_names_all_witness :
    (process_poll_results [⟨"Option A", 2⟩, ⟨"Option B", 2⟩] 4).outcome
      = some ("Tie between: " ++ String.intercalate ", "
          ((([⟨"Option A", 2⟩, ⟨"Option B", 2⟩] : List PollOption).filter (fun o =>
            o.voter_count = (([⟨"Option A", 2⟩, ⟨"Option B", 2⟩] : List PollOption).get
              ⟨0, by decide⟩).voter_count)).map PollOption.text)) := by
  exact process_results_tie_names_all [⟨"Option A", 2⟩, ⟨"Option B", 2⟩] 4 0 1
    (by decide) (by decide) (by decide) (by decide) (by decide) (by decide)

/-- The externally visible steps of the poll lifecycle routine, in the order
the code performs them: a sleep of a number of seconds, the reminder send,
the poll close request, the cleanup and save stage, and the final shutdown
step. -/
inductive LifecycleAction where
  | sleepSeconds (n : Int)
  | sendReminder
  | stopPoll
  | cleanupAndSave
  | shutdownStep
deriving DecidableEq

/-- Embedding of the poll lifecycle routine shared by both scripts: sleep
for the duration minus the reminder lead converted to seconds, send the
reminder, sleep for the reminder lead in seconds, close the poll, clean up
and save, then shut down. -/
def run_poll_lifecycle_actions (poll_duration_in_mins reminder_mins : Int) :
    List LifecycleAction :=
  [LifecycleAction.sleepSeconds ((poll_duration_in_mins - reminder_mins) * 60),
   LifecycleAction.sendReminder,
   LifecycleAction.sleepSeconds (reminder_mins * 60),
   LifecycleAction.stopPoll,
   LifecycleAction.cleanupAndSave,
   LifecycleAction.shutdownStep]

/-- Elapsed sleep time, in seconds, accumulated before the first occurrence
of the given action in an action list, or none if the action never occurs. -/
def elapsedBefore : List LifecycleAction → LifecycleAction → Option Int
  | [], _ => none
  | a :: rest, target =>
    if a = target then some 0
    else
      match a with
      | LifecycleAction.sleepSeconds n => (elapsedBefore rest target).map (fun t => n + t)
      | _ => elapsedBefore rest target

/-- C8: with a reminder lead below the poll duration, the reminder is sent
after exactly duration minus lead minutes of waiting, the close request is
issued after exactly the full duration, and so the second wait lasts exactly
the reminder lead. All times are in seconds, minutes times sixty. -/
theorem lifecycle_timing (d r : Int) (h : r < d) :
    elapsedBefore (run_poll_lifecycle_actions d r) LifecycleAction.sendReminder
      = some ((d - r) * 60) ∧
    elapsedBefore (run_poll_lifecycle_actions d r) LifecycleAction.stopPoll
      = some (d * 60) ∧
    d * 60 - (d - r) * 60 = r * 60 := by
  refine ⟨?_, ?_, by ring⟩
  · show some ((d - r) * 60 + 0) = some ((d - r) * 60)
    rw [Int.add_zero]
  · show some ((d - r) * 60 + (r * 60 + 0)) = some (d * 60)
    congr 1
    ring

/-- C8 witness: with duration 60 and lead 15 the reminder fires after 45
minutes of wait and the close request after 60 minutes, 15 minutes later. -/
theorem lifecycle_timing_witness :
    elapsedBefore (run_poll_lifecycle_actions 60 15) LifecycleAction.sendReminder
      = some ((60 - 15) * 60) ∧
    elapsedBefore (run_poll_lifecycle_actions 60 15) LifecycleAction.stopPoll
      = some (60 * 60) ∧
    (60 : Int) * 60 - (60 - 15) * 60 = 15 * 60 := by
  exact lifecycle_timing 60 15 (by decide)

/-- Operations of a poll run that write the status field of the poll
payload. Both scripts set it to active at construction; the unified script
sets it to active again while recording the created poll, and both set it
to closed when closing the poll. No operation in either script ever writes
the cancelled status. -/
inductive LifecycleOp where
  | updatePollData
  | closeAndProcess
deriving DecidableEq

/-- Status written by each status writing operation, regardless of the
previous status. -/
def statusAfter : LifecycleOp → PollStatus → PollStatus
  | LifecycleOp.updatePollData, _ => PollStatus.active
  | LifecycleOp.closeAndProcess, _ => PollStatus.closed

/-- Status writing operations performed by a poll run of the unified
script, in program order. -/
def post_poll_ops_unified : List LifecycleOp :=
  [LifecycleOp.updatePollData, LifecycleOp.closeAndProcess]

/-- Status writing operations performed by a poll run of the threading
script, in program order: its poll posting step updates other payload
fields but does not rewrite the status. -/
def post_poll_ops_threading : List LifecycleOp :=
  [LifecycleOp.closeAndProcess]

/-- The successive values of the status field along a run, starting from
the active status written at construction. -/
def statusTrace (ops : List LifecycleOp) : List PollStatus :=
  List.scanl (fun s op => statusAfter op s) PollStatus.active ops

/-- Rank of a status in the one way transition order: active before the
two terminal statuses. -/
def statusRank : PollStatus → Nat
  | PollStatus.active => 0
  | PollStatus.closed => 1
  | PollStatus.cancelled => 1

/-- C9: along the status trace of a poll run of either script, the status
only ever moves forward, and once the status has left active it is never
active again at any later point of the run. -/
theorem poll_status_monotonic
    (i1 j1 : Fin (statusTrace post_poll_ops_unified).length) (h1 : i1 ≤ j1)
    (i2 j2 : Fin (statusTrace post_poll_ops_threading).length) (h2 : i2 ≤ j2) :
    (statusRank ((statusTrace post_poll_ops_unified).get i1)
        ≤ statusRank ((statusTrace post_poll_ops_unified).get j1) ∧
      ((statusTrace post_poll_ops_unified).get i1 ≠ PollStatus.active →
        (statusTrace post_poll_ops_unified).get j1 ≠ PollStatus.active)) ∧
    (statusRank ((statusTrace post_poll_ops_threading).get i2)
        ≤ statusRank ((statusTrace post_poll_ops_threading).get j2) ∧
      ((statusTrace post_poll_ops_threading).get i2 ≠ PollStatus.active →
        (statusTrace post_poll_ops_threading).get j2 ≠ PollStatus.active)) := by
  revert i1 j1 i2 j2
  decide

/-- C9 witness: from the start of either run to its final state the rank
never decreases and the final state is not active once left. -/
theorem poll_status_monotonic_witness :
    (statusRank ((statusTrace post_poll_ops_unified).get ⟨0, by decide⟩)
        ≤ statusRank ((statusTrace post_poll_ops_unified).get ⟨2, by decide⟩) ∧
      ((statusTrace post_poll_ops_unified).get ⟨0, by decide⟩ ≠ PollStatus.active →
        (statusTrace post_poll_ops_unified).get ⟨2, by decide⟩ ≠ PollStatus.active)) ∧
    (statusRank ((statusTrace post_poll_ops_threading).get ⟨0, by decide⟩)
        ≤ statusRank ((statusTrace post_poll_ops_threading).get ⟨1, by decide⟩) ∧
      ((statusTrace post_poll_ops_threading).get ⟨0, by decide⟩ ≠ PollStatus.active →
        (statusTrace post_poll_ops_threading).get ⟨1, by decide⟩ ≠ PollStatus.active)) := by
  exact poll_status_monotonic ⟨0, by decide⟩ ⟨2, by decide⟩ (by decide)
    ⟨0, by decide⟩ ⟨1, by decide⟩ (by decide)

end PollingBot
